import Mathlib

/-!
Verification of the `pydantic_jsonld` context/SHACL export and signing subsystem.

The Python sources are shallowly embedded: JSON documents (Python dicts as produced
by `json.loads`) become ordered association lists over an inductive `Json` type,
the pure export/validation functions of `models.py`, `validation.py` and
`exporters.py` become Lean functions over that type, and the external
collaborators of `signatures.py` (pyld URDNA2015 normalization, SHA-256, the
Ed25519 primitive, base64) are treated as opaque services, exactly as the
design treats them: they are parameters of a `SigEnv` record, with the
contracts they advertise appearing as explicit hypotheses of the theorems.
-/

namespace PydanticJsonLD

/-- JSON values as produced by `json.loads`: Python dicts preserve insertion
order, so objects are ordered association lists.  Numbers are modelled as
rationals (enough to express the `@version == 1.1` comparison of the
validator). -/
inductive Json where
  | null : Json
  | bool (b : Bool) : Json
  | num (q : Rat) : Json
  | str (s : String) : Json
  | arr (items : List Json) : Json
  | obj (fields : List (String × Json)) : Json

/-- A Python dict with JSON values: ordered key/value pairs. -/
abbrev Obj := List (String × Json)

/-- Python `d[k]` / `d.get(k)`: first (and in a real dict, only) binding of `k`. -/
def lookupKey (o : Obj) (k : String) : Option Json :=
  match o with
  | [] => none
  | (k', v) :: rest => if k' = k then some v else lookupKey rest k

/-- Python `k in d`. -/
def hasKey (o : Obj) (k : String) : Bool :=
  (lookupKey o k).isSome

/-- Python `d[k] = v`: replace the binding in place if present (Python dicts keep the
original key position on overwrite), else append at the end. -/
def setKey (o : Obj) (k : String) (v : Json) : Obj :=
  match o with
  | [] => [(k, v)]
  | (k', v') :: rest => if k' = k then (k, v) :: rest else (k', v') :: setKey rest k v

/-- Python `del d[k]` (a no-op when the key is absent, matching the guarded deletes in
the source).  Dicts never hold a key twice, so filtering equals deletion. -/
def delKey (o : Obj) (k : String) : Obj :=
  o.filter (fun p => p.1 ≠ k)

/-- Python `s.startswith(pre)`. -/
def strStartsWith (s pre : String) : Bool :=
  pre.data.isPrefixOf s.data

/-! ## Context grammar validator (`validation.py`)

`ValueError`s raised inside the pydantic validators become `Except.error`;
`validate_context` wraps them in `"Invalid JSON-LD context: ..."` exactly as
the `try/except ValidationError` of the source does. -/

/-- The `valid_containers` set in `ContextTerm.validate_term_definition`. -/
def validContainerValues : List String :=
  ["@list", "@set", "@index", "@language", "@id", "@type"]

/-- The `allowed_keywords` set in `ContextTerm.validate_term_definition`. -/
def allowedTermKeywords : List String :=
  ["@id", "@type", "@language", "@container", "@context",
   "@reverse", "@nest", "@prefix", "@protected"]

/-- The list of re-definable keywords in `JsonLDContext._validate_context_object`. -/
def redefinableKeywords : List String :=
  ["@id", "@type", "@value", "@language", "@index", "@list", "@set",
   "@reverse", "@graph", "@context"]

/-- The `@type` check of `ContextTerm.validate_term_definition`. -/
def checkTermType (v : Obj) : Except String Unit :=
  match lookupKey v "@type" with
  | none => .ok ()
  | some (.str _) => .ok ()
  | some _ => .error "@type must be a string"

/-- The `@container` check of `ContextTerm.validate_term_definition`. -/
def checkTermContainer (v : Obj) : Except String Unit :=
  match lookupKey v "@container" with
  | none => .ok ()
  | some (.str c) =>
    if validContainerValues.contains c then .ok ()
    else .error ("Invalid @container value: " ++ c)
  | some (.arr items) =>
    if items.all (fun it =>
        match it with
        | .str s => validContainerValues.contains s
        | _ => false) then .ok ()
    else .error "Invalid @container value"
  | some _ => .error "@container must be a string or list"

/-- The `@language` check of `ContextTerm.validate_term_definition`. -/
def checkTermLanguage (v : Obj) : Except String Unit :=
  match lookupKey v "@language" with
  | none => .ok ()
  | some (.str _) => .ok ()
  | some _ => .error "@language must be a string"

/-- Embeds `ContextTerm.validate_term_definition`: requires `@id`, rejects keys outside
the allowed keyword set, then checks `@type` / `@container` / `@language`. -/
def validate_term_definition (v : Obj) : Except String Unit :=
  if hasKey v "@id" = false then .error "Term definition must have @id property"
  else if v.any (fun p => !(allowedTermKeywords.contains p.1)) then
    .error "Unknown JSON-LD keywords"
  else do
    checkTermType v
    checkTermContainer v
    checkTermLanguage v

/-- One iteration of the key/value loop in
`JsonLDContext._validate_context_object`. -/
def validateContextEntry (k : String) (v : Json) : Except String Unit :=
  if strStartsWith k "@" && !(redefinableKeywords.contains k) then
    if k = "@version" then
      match v with
      | .num q => if q = (11 : Rat) / 10 then .ok () else .error "@version must be 1.1"
      | _ => .error "@version must be 1.1"
    else if k = "@base" then
      match v with
      | .str _ => .ok ()
      | _ => .error "@base must be a string"
    else if k = "@vocab" then
      match v with
      | .str _ => .ok ()
      | _ => .error "@vocab must be a string"
    else if k = "@language" then
      match v with
      | .str _ => .ok ()
      | _ => .error "@language must be a string"
    else if k = "@import" then
      match v with
      | .str _ => .ok ()
      | _ => .error "@import must be a string"
    else if k = "@protected" then
      match v with
      | .bool _ => .ok ()
      | _ => .error "@protected must be a boolean"
    else .error ("Unknown JSON-LD keyword: " ++ k)
  else
    match v with
    | .str _ => .ok ()
    | .obj t => validate_term_definition t
    | _ => .error ("Term '" ++ k ++ "' must be string or dict")

/-- Embeds `JsonLDContext._validate_context_object`: validate every entry in order. -/
def validate_context_object (o : Obj) : Except String Unit :=
  match o with
  | [] => .ok ()
  | (k, v) :: rest => do
    validateContextEntry k v
    validate_context_object rest

/-- The array branch of `JsonLDContext.validate_context`: each item must be a
remote-context URL (`http://` / `https://`) or a context object. -/
def validate_context_items (items : List Json) : Except String Unit :=
  match items with
  | [] => .ok ()
  | .str s :: rest =>
    if strStartsWith s "http://" || strStartsWith s "https://" then
      validate_context_items rest
    else .error "Remote context must be a valid URL"
  | .obj o :: rest => do
    validate_context_object o
    validate_context_items rest
  | _ :: _ => .error "Context array item must be string or dict"

/-- Embeds `JsonLDContext.validate_context`: dispatch on array / object / other. -/
def validate_context_value (v : Json) : Except String Unit :=
  match v with
  | .arr items => validate_context_items items
  | .obj o => validate_context_object o
  | _ => .error "Context must be a dictionary or array"

/-- Embeds `validate_context` (module-level function, `validation.py:141`): requires
the `@context` wrapper key, then validates the value found under it; grammar
failures are re-raised with the `Invalid JSON-LD context:` prefix. -/
def validate_context (context_data : Obj) : Except String Unit :=
  match lookupKey context_data "@context" with
  | none => .error "Document must have @context property"
  | some v =>
    match validate_context_value v with
    | .ok _ => .ok ()
    | .error e => .error ("Invalid JSON-LD context: " ++ e)

/-! ## Model schema description

The base model framework (pydantic) is an external collaborator; per the
design it exposes, for each model class, an ordered field list with the
field's public alias, required-ness, declared type, validation constraint
bounds, and the attached JSON-LD term metadata (`jsonld_meta`), plus the
class-level `configure_jsonld` state.  That schema description is embedded
here as plain records. -/

/-- The Python type annotation of a field, as far as `exporters.py` inspects
it: the scalar types of `_python_type_to_xsd`'s mapping, `List[...]`/`Dict`
generics, the `Optional[...]` wrapper (a two-argument `Union` with `NoneType`),
and everything else. -/
inductive PyType where
  | pyStr : PyType
  | pyInt : PyType
  | pyFloat : PyType
  | pyBool : PyType
  | pyList (elem : PyType) : PyType
  | pyDict : PyType
  | pyOptional (inner : PyType) : PyType
  | pyOther (tyName : String) : PyType
deriving DecidableEq

/-- The `jsonld_meta` dict stored by `Term(iri, type_, container, language)`. -/
structure TermMeta where
  iri : String
  typ : Option String
  container : Option String
  language : Option String

/-- One model field as the exporters see it: `field_info` plus its name-level
data.  The constraint slots mirror `min_length` / `max_length` / `pattern` /
`ge` / `gt` / `le` / `lt` on the field; `none` covers both an absent attribute
and an attribute set to `None` (both guards in `_add_field_constraints` fail). -/
structure FieldSpec where
  aliasName : Option String
  required : Bool
  ftype : PyType
  minLength : Option Nat
  maxLength : Option Nat
  pattern : Option String
  geC : Option Rat
  gtC : Option Rat
  leC : Option Rat
  ltC : Option Rat
  meta : Option TermMeta

/-- A model class: its name, its resolved ordered field set (name ↦ field),
the `configure_jsonld` state, and the names of all classes in its method
resolution order (itself and its bases) for the `isinstance` check of
`export_graph`. -/
structure ModelClass where
  name : String
  fields : List (String × FieldSpec)
  base : Option String
  vocab : Option String
  remoteContexts : List String
  prefixes : List (String × String)
  ancestors : List String

/-- Python truthiness of an optional string (`if cls._json_ld_base:`,
`if jsonld_meta.get("type"):` — `None` and `""` are both falsy). -/
def truthyStr (o : Option String) : Option String :=
  match o with
  | some s => if s = "" then none else some s
  | none => none

/-! ## Context compiler (`JsonLDModel.export_context`, `models.py:103`) -/

/-- Computes `term_name = field_info.alias or field_name` (Python `or`: an absent or
empty alias falls back to the field name). -/
def termName (fname : String) (f : FieldSpec) : String :=
  match f.aliasName with
  | some a => if a = "" then fname else a
  | none => fname

/-- The term-definition object built for one annotated field:
`{"@id": iri}` plus `@type` / `@container` / `@language` when truthy. -/
def buildTermDef (m : TermMeta) : Obj :=
  let d : Obj := [("@id", .str m.iri)]
  let d := match truthyStr m.typ with
    | some t => setKey d "@type" (.str t)
    | none => d
  let d := match truthyStr m.container with
    | some c => setKey d "@container" (.str c)
    | none => d
  match truthyStr m.language with
  | some l => setKey d "@language" (.str l)
  | none => d

/-- The local context object of `export_context`: `@base` and `@vocab` when
configured and truthy, then the prefix map (`local_context.update(prefixes)`),
then one term definition per field carrying `jsonld_meta` — except that every
term name starting with `@` is skipped (`models.py:135`; note the source has
no carve-out for `@id`). -/
def localContext (cls : ModelClass) : Obj :=
  let lc : Obj := []
  let lc := match truthyStr cls.base with
    | some b => setKey lc "@base" (.str b)
    | none => lc
  let lc := match truthyStr cls.vocab with
    | some v => setKey lc "@vocab" (.str v)
    | none => lc
  let lc := cls.prefixes.foldl (fun acc kv => setKey acc kv.1 (.str kv.2)) lc
  cls.fields.foldl
    (fun acc fv =>
      match fv.2.meta with
      | none => acc
      | some m =>
        let tn := termName fv.1 fv.2
        if strStartsWith tn "@" then acc
        else setKey acc tn (.obj (buildTermDef m)))
    lc

/-- The final `@context` value: `remote_contexts + [local_context]` when remote
contexts are configured (a non-empty list is truthy), else the local context
alone. -/
def contextValue (cls : ModelClass) : Json :=
  match cls.remoteContexts with
  | [] => .obj (localContext cls)
  | rcs => .arr (rcs.map Json.str ++ [.obj (localContext cls)])

/-- Embeds `export_context`: build `{"@context": ...}`, validate it, and only return
it when validation passes; a validation failure surfaces to the caller. -/
def export_context (cls : ModelClass) : Except String Json :=
  match validate_context [("@context", contextValue cls)] with
  | .ok _ => .ok (.obj [("@context", contextValue cls)])
  | .error e => .error e

/-! ## SHACL shape compiler (`exporters.py`) -/

/-- The `Optional[T]`-unwrapping step of `_build_property_shape`
(`exporters.py:132`): a two-argument `Union` with `NoneType` is replaced by its
non-`None` argument; everything else passes through. -/
def unwrapOptionalType (t : PyType) : PyType :=
  match t with
  | .pyOptional inner => inner
  | t => t

/-- Embeds `_python_type_to_xsd`: scalar mapping, element type for `List[...]`,
`None` for dicts and anything unmapped. -/
def pythonTypeToXsd (t : PyType) : Option String :=
  match t with
  | .pyStr => some "xsd:string"
  | .pyInt => some "xsd:integer"
  | .pyFloat => some "xsd:double"
  | .pyBool => some "xsd:boolean"
  | .pyList elem => pythonTypeToXsd elem
  | _ => none

/-- Embeds `_add_field_constraints`: copy string / numeric constraints for scalar
fields, then (independently) turn a list field's length bounds into
`sh:maxCount` / `sh:minCount` (`exporters.py:232`). -/
def add_field_constraints (ps : Obj) (f : FieldSpec) (ftype : PyType) : Obj :=
  let ps :=
    if ftype = .pyStr then
      let ps := match f.maxLength with
        | some n => setKey ps "sh:maxLength" (.num n)
        | none => ps
      let ps := match f.minLength with
        | some n => setKey ps "sh:minLength" (.num n)
        | none => ps
      match f.pattern with
      | some p => setKey ps "sh:pattern" (.str p)
      | none => ps
    else if ftype = .pyInt ∨ ftype = .pyFloat then
      let ps := match f.geC with
        | some q => setKey ps "sh:minInclusive" (.num q)
        | none => ps
      let ps := match f.gtC with
        | some q => setKey ps "sh:minExclusive" (.num q)
        | none => ps
      let ps := match f.leC with
        | some q => setKey ps "sh:maxInclusive" (.num q)
        | none => ps
      match f.ltC with
      | some q => setKey ps "sh:maxExclusive" (.num q)
      | none => ps
    else ps
  match ftype with
  | .pyList _ =>
    let ps := match f.maxLength with
      | some n => setKey ps "sh:maxCount" (.num n)
      | none => ps
    match f.minLength with
    | some n => setKey ps "sh:minCount" (.num n)
    | none => ps
  | _ => ps

/-- The initial property shape of `_build_property_shape`: id, type, path. -/
def propertyShapeBase (fname : String) (m : TermMeta) (baseIri : String) : Obj :=
  [("@id", .str (baseIri ++ "shapes/" ++ fname ++ "PropertyShape")),
   ("@type", .str "sh:PropertyShape"),
   ("sh:path", .obj [("@id", .str m.iri)])]

/-- The cardinality step of `_build_property_shape` (`exporters.py:124`):
`sh:minCount = 1` exactly for a required field. -/
def propertyShapeWithCard (f : FieldSpec) (ps : Obj) : Obj :=
  if f.required then setKey ps "sh:minCount" (.num 1) else ps

/-- The datatype step of `_build_property_shape`: node kind / datatype from
the explicit descriptor type when truthy, else inferred from the
(Optional-unwrapped) Python type. -/
def propertyShapeWithDatatype (m : TermMeta) (ftype : PyType) (ps : Obj) : Obj :=
  match truthyStr m.typ with
  | some t =>
    if t = "@id" then setKey ps "sh:nodeKind" (.obj [("@id", .str "sh:IRI")])
    else if strStartsWith t "xsd:" then setKey ps "sh:datatype" (.obj [("@id", .str t)])
    else ps
  | none =>
    match pythonTypeToXsd ftype with
    | some d => setKey ps "sh:datatype" (.obj [("@id", .str d)])
    | none => ps

/-- Embeds `_build_property_shape`: skipped entirely when the descriptor carries no
IRI (`if not property_iri`); otherwise the base shape, the cardinality step,
the datatype step, and finally the field constraints. -/
def build_property_shape (fname : String) (f : FieldSpec) (m : TermMeta)
    (baseIri : String) : Option Obj :=
  if m.iri = "" then none
  else some (add_field_constraints
    (propertyShapeWithDatatype m (unwrapOptionalType f.ftype)
      (propertyShapeWithCard f (propertyShapeBase fname m baseIri)))
    f (unwrapOptionalType f.ftype))

/-! ## String helpers shared by the graph assembler and the signing pipeline -/

/-- Fuel-driven scan implementing Python `str.replace`: at each position,
either the pattern matches and is replaced, or one character is kept.  One
unit of fuel is spent per position, so fuel equal to the string length is
always enough. -/
def replaceChars : Nat → List Char → List Char → List Char → List Char
  | _, [], _, _ => []
  | 0, s, _, _ => s
  | fuel + 1, c :: rest, pat, rep =>
    if pat.isPrefixOf (c :: rest) && !pat.isEmpty then
      rep ++ replaceChars fuel (List.drop pat.length (c :: rest)) pat rep
    else
      c :: replaceChars fuel rest pat rep

/-- Python `s.replace(pat, rep)` (replace every occurrence, left to right). -/
def pyReplace (s pat rep : String) : String :=
  ⟨replaceChars s.data.length s.data pat.data rep.data⟩

/-- The opening and closing brace characters of a `str.format` replacement
field. -/
def braceOpen : Char := Char.ofNat 123

def braceClose : Char := Char.ofNat 125

/-- Python `str()` of a dumped scalar value, as `str.format` renders a
replacement field with an empty format spec: strings verbatim, booleans as
`True`/`False`, `None`, integers in decimal.  A non-integral number (whose
float printing the rational embedding cannot reproduce exactly) and compound
values (rendered by Python via `repr`) are outside the modelled domain and
return `none`; the caller turns that into an error, which only ever replaces
a Python success by a model failure, never the reverse. -/
def pyStrOfScalar (v : Json) : Option String :=
  match v with
  | .str s => some s
  | .bool true => some "True"
  | .bool false => some "False"
  | .null => some "None"
  | .num q => if q.den = 1 then some (toString q.num) else none
  | _ => none

/-- A character allowed in a plain keyword replacement-field name. -/
def isIdentChar (c : Char) : Bool :=
  c.isAlphanum || c = '_'

/-- Resolution of one replacement-field name against
`format(index=idx, **item)`: an empty or all-digit name is positional
auto-numbering / indexing, which raises `IndexError` since no positional
arguments are passed; a name with attribute access, indexing, a conversion or
a format spec is outside the modelled domain (reported as an error — the
conservative direction); `index` resolves to the keyword argument; any other
identifier is looked up in the item's fields, raising `KeyError` when
absent. -/
def resolveField (idx : Nat) (item : Obj) (nm : String) : Except String (List Char) :=
  if nm.data.all (fun c => c.isDigit) then
    .error "IndexError: no positional arguments for format field"
  else if !(nm.data.all isIdentChar) then
    .error ("unsupported replacement field in model: " ++ nm)
  else if nm = "index" then .ok (toString idx).data
  else
    match lookupKey item nm with
    | some v =>
      match pyStrOfScalar v with
      | some s => .ok s.data
      | none => .error ("interpolation of non-scalar value not modelled: " ++ nm)
    | none => .error ("KeyError: " ++ nm)

/-- The scan of Python `str.format`: literal text is copied, doubled braces
escape a brace, and each `\x7bname\x7d` replacement field is resolved via
`resolveField`; a stray or unterminated brace raises `ValueError` (Python's
messages quote the brace character, paraphrased here without it).  One unit
of fuel is spent per consumed character, so fuel equal to the string length
always suffices; the zero-fuel equation is unreachable. -/
def pyFormatChars (idx : Nat) (item : Obj) : Nat → List Char → Except String (List Char)
  | _, [] => .ok []
  | 0, s => .ok s
  | fuel + 1, c :: rest =>
    if c = braceOpen then
      match rest with
      | [] => .error "ValueError: single opening brace encountered in format string"
      | c2 :: rest2 =>
        if c2 = braceOpen then
          match pyFormatChars idx item fuel rest2 with
          | .ok out => .ok (braceOpen :: out)
          | .error e => .error e
        else
          match (c2 :: rest2).dropWhile (fun ch => ch ≠ braceClose) with
          | [] => .error "ValueError: expected closing brace before end of string"
          | _ :: rest3 =>
            match resolveField idx item
                ⟨(c2 :: rest2).takeWhile (fun ch => ch ≠ braceClose)⟩ with
            | .error e => .error e
            | .ok valChars =>
              match pyFormatChars idx item fuel rest3 with
              | .ok out => .ok (valChars ++ out)
              | .error e => .error e
    else if c = braceClose then
      match rest with
      | [] => .error "ValueError: single closing brace encountered in format string"
      | c2 :: rest2 =>
        if c2 = braceClose then
          match pyFormatChars idx item fuel rest2 with
          | .ok out => .ok (braceClose :: out)
          | .error e => .error e
        else .error "ValueError: single closing brace encountered in format string"
    else
      match pyFormatChars idx item fuel rest with
      | .ok out => .ok (c :: out)
      | .error e => .error e

/-- Embeds `auto_id_pattern.format(index=i+1, **item_data)` (`models.py:224`).
An item that itself carries an `index` key makes the call raise `TypeError`
(duplicate keyword argument) before any formatting; otherwise the pattern is
scanned with `index` bound and the item's fields as keyword arguments.
Exceptions raised by `format` become `Except.error` and propagate out of the
graph export uncaught, as in Python. -/
def formatAutoId (pat : String) (idx : Nat) (item : Obj) : Except String String :=
  if hasKey item "index" then
    .error "TypeError: multiple values for keyword argument index"
  else
    match pyFormatChars idx item pat.data.length pat.data with
    | .ok out => .ok ⟨out⟩
    | .error e => .error e

/-! ## Graph assembler (`JsonLDModel.export_graph`, `models.py:178`) -/

/-- A model instance as the graph assembler consumes it: the name of its
concrete class, the method-resolution-order class names used by
`isinstance(instance, cls)`, and its `model_dump(by_alias=True)` form. -/
structure PyInstance where
  clsName : String
  clsAncestors : List String
  dump : Obj

/-- Python `isinstance(instance, cls)`: true when `cls` is the instance's
class or any of its base classes. -/
def isinstance (inst : PyInstance) (cls : ModelClass) : Bool :=
  inst.clsAncestors.contains cls.name

/-- The per-item step of `export_graph` (`models.py:218`): dump the instance
and synthesize an `@id` from the 1-based index when the item has none and a
*truthy* pattern was given (`if "@id" not in item_data and auto_id_pattern:`
— an empty pattern string is falsy and synthesizes nothing).  A `format`
exception propagates. -/
def graphItem (autoIdPattern : Option String) (i : Nat)
    (inst : PyInstance) : Except String Json :=
  match autoIdPattern with
  | none => .ok (.obj inst.dump)
  | some pat =>
    if hasKey inst.dump "@id" = false ∧ pat ≠ "" then
      match formatAutoId pat (i + 1) inst.dump with
      | .ok s => .ok (.obj (setKey inst.dump "@id" (.str s)))
      | .error e => .error e
    else .ok (.obj inst.dump)

/-- The `for i, instance in enumerate(instances)` loop building `graph_items`:
the first `format` exception aborts the loop and propagates. -/
def buildGraphItemsFrom (autoIdPattern : Option String) :
    Nat → List PyInstance → Except String (List Json)
  | _, [] => .ok []
  | i, inst :: rest =>
    match graphItem autoIdPattern i inst with
    | .error e => .error e
    | .ok item =>
      match buildGraphItemsFrom autoIdPattern (i + 1) rest with
      | .error e => .error e
      | .ok items => .ok (item :: items)

def buildGraphItems (autoIdPattern : Option String)
    (instances : List PyInstance) : Except String (List Json) :=
  buildGraphItemsFrom autoIdPattern 0 instances

/-- Embeds `JsonLDModel.export_graph`: empty-instance and `isinstance` checks, graph
id defaulting (`nowStamp` stands for the `%Y%m%d-%H%M%S` timestamp), the
class context (`export_context` has already validated it; its `@context` value
is `contextValue cls`), the item list (a `format` exception aborts the
export), the shallow metadata merge, and the final re-validation of the
context. -/
def export_graph (cls : ModelClass) (instances : List PyInstance)
    (graphId : Option String) (metadata : Option Obj)
    (autoIdPattern : Option String) (nowStamp : String) : Except String Obj :=
  match instances with
  | [] => .error "Cannot create graph from empty instances list"
  | _ =>
    match instances.find? (fun inst => !(isinstance inst cls)) with
    | some bad =>
      .error ("All instances must be of type " ++ cls.name ++ ", got " ++ bad.clsName)
    | none =>
      let gid := match graphId with
        | some g => g
        | none => cls.name ++ "-graph-" ++ nowStamp
      match export_context cls with
      | .error e => .error e
      | .ok _ =>
        let ctx := contextValue cls
        match buildGraphItems autoIdPattern instances with
        | .error e => .error e
        | .ok items =>
          let doc : Obj :=
            [("@context", ctx), ("@id", .str gid), ("@type", .str "Dataset"),
             ("@graph", .arr items)]
          let doc := match metadata with
            | some md => md.foldl (fun acc kv => setKey acc kv.1 kv.2) doc
            | none => doc
          match validate_context [("@context", ctx)] with
          | .error e => .error e
          | .ok _ => .ok doc

/-- A model instance paired with its class, as consumed by the mixed-model
graph assembler. -/
structure MixedInstance where
  cls : ModelClass
  dump : Obj

/-- Modelled from the spec: `export_mixed_graph` is re-exported by
`__init__.py` and exercised by `tests/test_graphs.py`, but its definition is
absent from `exporters.py`.  Per §4.4 of the design it takes a non-empty
heterogeneous instance sequence, fails with the empty-model-set error when the
sequence is empty (the tests pin the message
`"Cannot create graph from empty models list"` and the `"mixed-graph-"` id
stem), and otherwise returns a `MixedGraphDocument`: merged context (union of
each contributing class's local context; the collision policy is left
unspecified by the design, modelled here as last-writer-wins in input order),
`@id`, `@type: "Dataset"`, `@graph` items in input order, and shallow-merged
metadata. -/
def export_mixed_graph (models : List MixedInstance) (graphId : Option String)
    (metadata : Option Obj) (nowStamp : String) : Except String Obj :=
  match models with
  | [] => .error "Cannot create graph from empty models list"
  | _ =>
    let gid := match graphId with
      | some g => g
      | none => "mixed-graph-" ++ nowStamp
    let ctx := models.foldl
      (fun acc m => (localContext m.cls).foldl (fun acc kv => setKey acc kv.1 kv.2) acc)
      ([] : Obj)
    let items := models.map (fun m => Json.obj m.dump)
    let doc : Obj :=
      [("@context", .obj ctx), ("@id", .str gid), ("@type", .str "Dataset"),
       ("@graph", .arr items)]
    let doc := match metadata with
      | some md => md.foldl (fun acc kv => setKey acc kv.1 kv.2) doc
      | none => doc
    .ok doc

/-! ## Canonicalization / signing pipeline (`signatures.py`)

`pyld.jsonld.normalize`, SHA-256, the Ed25519 primitive and base64 are
external collaborators that the pipeline treats as opaque; they appear as the
fields of `SigEnv`.  A failing collaborator call (an exception in Python) is a
`none` result. -/

/-- The components of the `datetime.now(timezone.utc)` value that
`isoformat()` prints. -/
structure UtcTime where
  year : Nat
  month : Nat
  day : Nat
  hour : Nat
  minute : Nat
  second : Nat
  microsecond : Nat

/-- A single decimal digit character (the argument is always `< 10` at every
use site; the catch-all keeps the function total). -/
def digitChar (d : Nat) : Char :=
  match d with
  | 0 => '0' | 1 => '1' | 2 => '2' | 3 => '3' | 4 => '4'
  | 5 => '5' | 6 => '6' | 7 => '7' | 8 => '8' | _ => '9'

/-- Zero-padded two-digit print (`%02d`, faithful for values below 100 —
datetime guarantees that for month/day/hour/minute/second). -/
def pad2 (n : Nat) : List Char :=
  [digitChar (n / 10 % 10), digitChar (n % 10)]

/-- Zero-padded four-digit print (`%04d`, faithful for years up to 9999,
datetime's full domain). -/
def pad4 (n : Nat) : List Char :=
  [digitChar (n / 1000 % 10), digitChar (n / 100 % 10),
   digitChar (n / 10 % 10), digitChar (n % 10)]

/-- Zero-padded six-digit print of the microsecond field (`%06d`). -/
def pad6 (n : Nat) : List Char :=
  [digitChar (n / 100000 % 10), digitChar (n / 10000 % 10),
   digitChar (n / 1000 % 10), digitChar (n / 100 % 10),
   digitChar (n / 10 % 10), digitChar (n % 10)]

/-- The characters of `datetime.isoformat()` before the UTC offset:
`YYYY-MM-DDTHH:MM:SS`, with `.ffffff` appended exactly when the microsecond
field is non-zero (isoformat omits it only when it is 0). -/
def isoBodyChars (t : UtcTime) : List Char :=
  pad4 t.year ++ '-' :: pad2 t.month ++ '-' :: pad2 t.day ++
    'T' :: pad2 t.hour ++ ':' :: pad2 t.minute ++ ':' :: pad2 t.second ++
    (if t.microsecond = 0 then [] else '.' :: pad6 t.microsecond)

/-- Embeds `datetime.now(timezone.utc).isoformat()`: the body followed by the
`+00:00` UTC offset. -/
def isoformatUtc (t : UtcTime) : String :=
  ⟨isoBodyChars t ++ ('+' :: '0' :: '0' :: ':' :: '0' :: '0' :: [])⟩

/-- The default `created` timestamp of `create_proof_object`:
`datetime.now(timezone.utc).isoformat().replace('+00:00', 'Z')`. -/
def utcnowString (t : UtcTime) : String :=
  pyReplace (isoformatUtc t) "+00:00" "Z"

/-- The `YYYY-MM-DDTHH:MM:SSZ` shape the design prescribes for the default
`created` timestamp: exactly 20 characters, digits in the date/time positions,
literal separators, a trailing `Z`, and no fractional seconds. -/
def isSecondPrecisionZ (s : String) : Bool :=
  match s.data with
  | [y1, y2, y3, y4, '-', m1, m2, '-', d1, d2, 'T',
     h1, h2, ':', mi1, mi2, ':', s1, s2, 'Z'] =>
    y1.isDigit && y2.isDigit && y3.isDigit && y4.isDigit &&
    m1.isDigit && m2.isDigit && d1.isDigit && d2.isDigit &&
    h1.isDigit && h2.isDigit && mi1.isDigit && mi2.isDigit &&
    s1.isDigit && s2.isDigit
  | _ => false

/-- Embeds `create_proof_object`: the proof without `proofValue`; `created` defaults
to the current UTC time string. -/
def create_proof_object (now : UtcTime) (verificationMethod : String)
    (created : Option String) (proofPurpose : String) : Obj :=
  let c := created.getD (utcnowString now)
  [("type", .str "Ed25519Signature2020"),
   ("created", .str c),
   ("verificationMethod", .str verificationMethod),
   ("proofPurpose", .str proofPurpose)]

/-- The opaque external collaborators of the pipeline: URDNA2015
canonicalization (`none` = the document is not expandable), SHA-256, the
Ed25519 primitive (deterministic signing; boolean verification standing for
raise/no-raise), base64, and the raw/base64 key encoding used by
`generate_key_id`. -/
structure SigEnv (Priv Pub : Type) where
  canonicalize : Json → Option (List Nat)
  sha256 : List Nat → List Nat
  edSign : Priv → List Nat → List Nat
  edVerify : Pub → List Nat → List Nat → Bool
  b64encode : List Nat → String
  b64decode : String → Option (List Nat)
  pubOf : Priv → Pub
  keyB64 : Pub → String

/-- Embeds `generate_key_id` (`crypto_utils.py:162`): `"key-"` plus the first 8
characters of the base64 public key. -/
def generate_key_id {Priv Pub : Type} (env : SigEnv Priv Pub) (pub : Pub) : String :=
  "key-" ++ (env.keyB64 pub).take 8

/-- The verification-method defaulting step of `sign_jsonld_document`
(`signatures.py:111`): derive an id from the public key when none is given. -/
def resolveVerificationMethod {Priv Pub : Type} (env : SigEnv Priv Pub)
    (priv : Priv) (vm : Option String) : String :=
  match vm with
  | some v => v
  | none => generate_key_id env (env.pubOf priv)

/-- The document that `sign_jsonld_document` canonicalizes: the (deep-copied)
input with any pre-existing `proof` removed and the fresh
proof-without-`proofValue` attached (at the end, as a fresh dict key). -/
def signBody {Priv Pub : Type} (env : SigEnv Priv Pub) (now : UtcTime)
    (document : Obj) (priv : Priv) (vm : Option String) (created : Option String)
    (proofPurpose : String) : Obj :=
  setKey (delKey document "proof") "proof"
    (.obj (create_proof_object now (resolveVerificationMethod env priv vm)
      created proofPurpose))

/-- Embeds `sign_jsonld_document`: canonicalize the proof-augmented document, hash,
sign, base64-encode, and attach the completed proof.  A canonicalization
failure is re-raised as the signing `ValueError`. -/
def sign_jsonld_document {Priv Pub : Type} (env : SigEnv Priv Pub) (now : UtcTime)
    (document : Obj) (priv : Priv) (vm : Option String) (created : Option String)
    (proofPurpose : String) : Except String Obj :=
  let body := signBody env now document priv vm created proofPurpose
  match env.canonicalize (.obj body) with
  | none => .error "Failed to sign JSON-LD document"
  | some canonicalBytes =>
    let hashDigest := env.sha256 canonicalBytes
    let signatureB64 := env.b64encode (env.edSign priv hashDigest)
    let proof := create_proof_object now (resolveVerificationMethod env priv vm)
      created proofPurpose
    .ok (setKey body "proof" (.obj (setKey proof "proofValue" (.str signatureB64))))

/-- Embeds `verify_jsonld_document`: every failure (missing or non-dict proof, wrong
proof type, missing or non-string or undecodable `proofValue`,
re-canonicalization failure, cryptographic mismatch) yields `false`; the
Python `try/except` wrappers make the function total, which the embedding
expresses by returning `Bool` in every branch. -/
def verify_jsonld_document {Priv Pub : Type} (env : SigEnv Priv Pub)
    (signedDocument : Obj) (pub : Pub) : Bool :=
  match lookupKey signedDocument "proof" with
  | some (.obj proof) =>
    match lookupKey proof "type" with
    | some (.str t) =>
      if t = "Ed25519Signature2020" then
        match lookupKey proof "proofValue" with
        | some (.str signatureB64) =>
          match env.b64decode signatureB64 with
          | some signatureBytes =>
            match env.canonicalize
              (.obj (setKey signedDocument "proof" (.obj (delKey proof "proofValue")))) with
            | some canonicalBytes => env.edVerify pub signatureBytes (env.sha256 canonicalBytes)
            | none => false
          | none => false
        | _ => false
      else false
    | _ => false
  | _ => false

/-! ## Concrete instances used by the closed witness and counterexample
theorems -/

/-- A small concrete collaborator instance: keys are naturals, the public key
equals the private key, signing prepends the key to the digest, verification
checks exactly that shape, and base64 maps small bytes to digit characters
(and decodes them back). -/
def exEnv : SigEnv Nat Nat where
  canonicalize := fun _ => some [7]
  sha256 := fun bs => bs
  edSign := fun k m => k :: m
  edVerify := fun k sig m => decide (sig = k :: m)
  b64encode := fun bs => ⟨bs.map digitChar⟩
  b64decode := fun s => some (s.data.map (fun c => c.toNat - 48))
  pubOf := fun k => k
  keyB64 := fun k => toString k

/-- A fixed clock reading for the witnesses. -/
def exNow : UtcTime := ⟨2025, 7, 15, 14, 30, 0, 0⟩

/-- A field spec with no constraints, no alias and no term metadata; concrete
models below override the slots they need. -/
def plainField : FieldSpec :=
  { aliasName := none, required := true, ftype := .pyStr, minLength := none,
    maxLength := none, pattern := none, geC := none, gtC := none, leC := none,
    ltC := none, meta := none }

/-- The model of `tests/test_models.py::test_export_context_with_aliases`:
`identifier: str = Term("schema:identifier", alias="@id", type_="@id")` and
`name: str = Term("schema:name")`, no namespace configuration. -/
def exAliasModel : ModelClass :=
  { name := "TestModel",
    fields :=
      [("identifier",
        { plainField with
          aliasName := some "@id",
          meta := some ⟨"schema:identifier", some "@id", none, none⟩ }),
       ("name", { plainField with meta := some ⟨"schema:name", none, none, none⟩ })],
    base := none, vocab := none, remoteContexts := [], prefixes := [],
    ancestors := ["TestModel", "JsonLDModel", "BaseModel"] }

/-- The basic scenario document of the design (§8). -/
def exDoc : Obj :=
  [("@context", .obj [("name", .str "https://schema.org/name")]),
   ("name", .str "Alice")]

/-- A model whose only annotated field carries a container value outside the
validator's domain (`Term("schema:keywords", container="bogus")`). -/
def exBadContainerModel : ModelClass :=
  { name := "Bad",
    fields :=
      [("tags", { plainField with
        ftype := .pyList .pyStr,
        meta := some ⟨"schema:keywords", none, some "bogus", none⟩ })],
    base := none, vocab := none, remoteContexts := [], prefixes := [],
    ancestors := ["Bad", "JsonLDModel", "BaseModel"] }

/-- A fully configured model exercising base, prefixes, a remote context and
a `@set` container, as in the repository's graph tests. -/
def exPersonModel : ModelClass :=
  { name := "PersonModel",
    fields :=
      [("name", { plainField with meta := some ⟨"schema:name", none, none, none⟩ }),
       ("skills", { plainField with
         ftype := .pyList .pyStr,
         meta := some ⟨"schema:knowsAbout", none, some "@set", none⟩ })],
    base := some "https://example.org/people/", vocab := none,
    remoteContexts := ["https://schema.org/"],
    prefixes := [("schema", "https://schema.org/")],
    ancestors := ["PersonModel", "JsonLDModel", "BaseModel"] }

/-- An optional (defaulted) list field with an explicit `min_length=1` bound
and its descriptor. -/
def exOptListMeta : TermMeta := ⟨"schema:knowsAbout", none, some "@set", none⟩

def exOptListField : FieldSpec :=
  { plainField with
    required := false, ftype := .pyList .pyStr, minLength := some 1,
    meta := some exOptListMeta }

/-- A plain required string field and its descriptor. -/
def exNameMeta : TermMeta := ⟨"schema:name", none, none, none⟩

def exNameField : FieldSpec := { plainField with meta := some exNameMeta }

/-- An instance of `PersonModel` itself. -/
def exPersonInstance : PyInstance :=
  { clsName := "PersonModel",
    clsAncestors := ["PersonModel", "JsonLDModel", "BaseModel"],
    dump := [("name", .str "Alice"), ("skills", .arr [.str "Python"])] }

/-- An instance of a proper subclass `ExtendedPerson(PersonModel)`: its
concrete class is not `PersonModel`, but `PersonModel` is among its bases. -/
def exSubclassInstance : PyInstance :=
  { clsName := "ExtendedPerson",
    clsAncestors := ["ExtendedPerson", "PersonModel", "JsonLDModel", "BaseModel"],
    dump := [("name", .str "Bob"), ("skills", .arr [.str "Rust"])] }

/-- An instance of the unrelated `ProductModel`. -/
def exProductInstance : PyInstance :=
  { clsName := "ProductModel",
    clsAncestors := ["ProductModel", "JsonLDModel", "BaseModel"],
    dump := [("name", .str "Laptop")] }

/-! ## Analysis predicates for the context round-trip -/

/-- An entry the grammar validator always accepts inside a context object:
`@base` / `@vocab` with a string value, or a non-`@` key mapping to a string
or to a term definition that passes `validate_term_definition`. -/
def GoodEntry (e : String × Json) : Prop :=
  (e.1 = "@base" ∧ ∃ s, e.2 = .str s) ∨
  (e.1 = "@vocab" ∧ ∃ s, e.2 = .str s) ∨
  (strStartsWith e.1 "@" = false ∧
    ((∃ s, e.2 = .str s) ∨
     (∃ t, e.2 = .obj t ∧ validate_term_definition t = .ok ())))

/-- A field's descriptor has a container value (when truthy) that the grammar
validator accepts. -/
def containerOk (f : FieldSpec) : Bool :=
  match f.meta with
  | none => true
  | some m =>
    match truthyStr m.container with
    | none => true
    | some c => validContainerValues.contains c

/-- All prefix names avoid the `@` name space. -/
def prefixesOk (cls : ModelClass) : Bool :=
  cls.prefixes.all (fun kv => !(strStartsWith kv.1 "@"))

/-- All remote context references are `http://` / `https://` URLs. -/
def remoteContextsOk (cls : ModelClass) : Bool :=
  cls.remoteContexts.all (fun r => strStartsWith r "http://" || strStartsWith r "https://")

/-- All field descriptors carry validator-accepted container values. -/
def fieldsContainerOk (cls : ModelClass) : Bool :=
  cls.fields.all (fun fv => containerOk fv.2)

/-! ## Dictionary lemmas -/

theorem lookup_setKey_self (o : Obj) (k : String) (v : Json) :
    lookupKey (setKey o k v) k = some v := by
  induction o with
  | nil => simp [setKey, lookupKey]
  | cons hd tl ih =>
    by_cases h : hd.1 = k
    · simp [setKey, lookupKey, h]
    · simp [setKey, lookupKey, h, ih]

theorem lookup_setKey_ne (o : Obj) (k k' : String) (v : Json) (h : k' ≠ k) :
    lookupKey (setKey o k v) k' = lookupKey o k' := by
  induction o with
  | nil => simp [setKey, lookupKey, Ne.symm h]
  | cons hd tl ih =>
    obtain ⟨a, b⟩ := hd
    by_cases hk : a = k
    · subst hk
      simp [setKey, lookupKey, Ne.symm h]
    · simp [setKey, hk, lookupKey, ih]

theorem setKey_setKey (o : Obj) (k : String) (v w : Json) :
    setKey (setKey o k v) k w = setKey o k w := by
  induction o with
  | nil => simp [setKey]
  | cons hd tl ih =>
    by_cases h : hd.1 = k
    · simp [setKey, h]
    · simp [setKey, h, ih]

theorem mem_setKey (o : Obj) (k : String) (v : Json) (e : String × Json)
    (h : e ∈ setKey o k v) : e ∈ o ∨ e = (k, v) := by
  induction o with
  | nil => simpa [setKey] using h
  | cons hd tl ih =>
    by_cases hk : hd.1 = k
    · simp only [setKey, if_pos hk, List.mem_cons] at h
      rcases h with h | h
      · right; exact h
      · left; exact List.mem_cons_of_mem _ h
    · simp only [setKey, if_neg hk, List.mem_cons] at h
      rcases h with h | h
      · left; exact h ▸ List.mem_cons_self _ _
      · rcases ih h with h' | h'
        · left; exact List.mem_cons_of_mem _ h'
        · right; exact h'

/-! ## Claim C10: the standalone validator requires the `@context` wrapper -/

/-- C10: `validate_context` requires the wrapper key: a mapping without
`"@context"` is rejected with `"Document must have @context property"` rather
than being treated as a context value, and when the key is present only the
value found under it is checked (the result is the same as validating a
document containing nothing but that `@context` entry). -/
theorem validate_context_requires_wrapper (d : Obj) :
    (lookupKey d "@context" = none →
      validate_context d = .error "Document must have @context property") ∧
    (∀ v, lookupKey d "@context" = some v →
      validate_context d = validate_context [("@context", v)]) := by
  constructor
  · intro h
    simp [validate_context, h]
  · intro v h
    simp [validate_context, h, lookupKey]

/-- Witness for C10 at a concrete proof-less document. -/
theorem validate_context_requires_wrapper_witness :
    validate_context [("name", Json.str "Alice")] =
      .error "Document must have @context property" :=
  (validate_context_requires_wrapper [("name", Json.str "Alice")]).1 rfl

/-! ## Claim C4: signing is deterministic given a fixed `created` timestamp -/

/-- C4: with an explicit `created` timestamp (and all other inputs fixed —
the verification method either given or derived deterministically from the
key), the signed document does not depend on the ambient clock: two
invocations at different clock readings produce identical documents.  Since
the embedding's documents are ordered key/value lists, equality of documents
is byte-identity of their serialized forms; every other input of
`sign_jsonld_document` is an explicit argument, so this is the full
determinism statement. -/
theorem sign_deterministic {Priv Pub : Type} (env : SigEnv Priv Pub)
    (now1 now2 : UtcTime) (document : Obj) (priv : Priv) (vm : Option String)
    (created : String) (proofPurpose : String) :
    sign_jsonld_document env now1 document priv vm (some created) proofPurpose =
      sign_jsonld_document env now2 document priv vm (some created) proofPurpose := rfl

/-! ## Claims C1 and C2: the verification pipeline -/

/-- Exact characterization of when `verify_jsonld_document` returns `true`:
the document must carry a dict `proof` of type `Ed25519Signature2020` with a
string `proofValue` that base64-decodes, the `proofValue`-stripped document
must canonicalize, and the Ed25519 primitive must accept the signature over
the SHA-256 of the canonical bytes. -/
theorem verify_true_characterization {Priv Pub : Type} (env : SigEnv Priv Pub)
    (sd : Obj) (pub : Pub) :
    verify_jsonld_document env sd pub = true ↔
      ∃ proof s bs cb,
        lookupKey sd "proof" = some (.obj proof) ∧
        lookupKey proof "type" = some (.str "Ed25519Signature2020") ∧
        lookupKey proof "proofValue" = some (.str s) ∧
        env.b64decode s = some bs ∧
        env.canonicalize
          (.obj (setKey sd "proof" (.obj (delKey proof "proofValue")))) = some cb ∧
        env.edVerify pub bs (env.sha256 cb) = true := by
  constructor
  · intro h
    unfold verify_jsonld_document at h
    split at h
    case _ proof heq =>
      split at h
      case _ t ht =>
        split at h
        case isTrue hts =>
          subst hts
          split at h
          case _ s hpv =>
            split at h
            case _ bs hb =>
              split at h
              case _ cb hc => exact ⟨proof, s, bs, cb, heq, ht, hpv, hb, hc, h⟩
              case _ => exact absurd h (by simp)
            case _ => exact absurd h (by simp)
          case _ => exact absurd h (by simp)
        case isFalse => exact absurd h (by simp)
      case _ => exact absurd h (by simp)
    case _ => exact absurd h (by simp)
  · rintro ⟨proof, s, bs, cb, hp, ht, hpv, hb, hc, hv⟩
    unfold verify_jsonld_document
    simp only [hp, ht, hpv, hb, hc, if_pos rfl]
    exact hv

/-- C2: verification failures are never exceptions.  The embedded
`verify_jsonld_document` is a total `Bool`-valued function (the Python
`try/except` wrappers), and every failure mode listed by the design — missing
`proof` key, non-dict `proof`, proof type other than `Ed25519Signature2020`,
missing / non-string / undecodable `proofValue`, canonicalization failure of
the `proofValue`-stripped document, cryptographic mismatch — makes it return
`false`. -/
theorem verify_failure_returns_false {Priv Pub : Type} (env : SigEnv Priv Pub)
    (sd : Obj) (pub : Pub)
    (h : lookupKey sd "proof" = none
      ∨ (∃ j, lookupKey sd "proof" = some j ∧ ∀ kvs, j ≠ .obj kvs)
      ∨ (∃ proof, lookupKey sd "proof" = some (.obj proof) ∧
          lookupKey proof "type" ≠ some (.str "Ed25519Signature2020"))
      ∨ (∃ proof, lookupKey sd "proof" = some (.obj proof) ∧
          lookupKey proof "proofValue" = none)
      ∨ (∃ proof j, lookupKey sd "proof" = some (.obj proof) ∧
          lookupKey proof "proofValue" = some j ∧ ∀ s, j ≠ .str s)
      ∨ (∃ proof s, lookupKey sd "proof" = some (.obj proof) ∧
          lookupKey proof "proofValue" = some (.str s) ∧ env.b64decode s = none)
      ∨ (∃ proof, lookupKey sd "proof" = some (.obj proof) ∧
          env.canonicalize
            (.obj (setKey sd "proof" (.obj (delKey proof "proofValue")))) = none)
      ∨ (∃ proof s bs cb, lookupKey sd "proof" = some (.obj proof) ∧
          lookupKey proof "proofValue" = some (.str s) ∧
          env.b64decode s = some bs ∧
          env.canonicalize
            (.obj (setKey sd "proof" (.obj (delKey proof "proofValue")))) = some cb ∧
          env.edVerify pub bs (env.sha256 cb) = false)) :
    verify_jsonld_document env sd pub = false := by
  cases hb : verify_jsonld_document env sd pub
  · rfl
  · exfalso
    obtain ⟨proof, s, bs, cb, hp, ht, hpv, hdec, hc, hv⟩ :=
      (verify_true_characterization env sd pub).1 hb
    rcases h with h | h | h | h | h | h | h | h
    · rw [hp] at h
      exact Option.noConfusion h
    · obtain ⟨j, hj, hne⟩ := h
      rw [hp] at hj
      exact hne proof (Option.some.inj hj).symm
    · obtain ⟨p2, hp2, hne⟩ := h
      rw [hp] at hp2
      cases Json.obj.inj (Option.some.inj hp2)
      exact hne ht
    · obtain ⟨p2, hp2, hnone⟩ := h
      rw [hp] at hp2
      cases Json.obj.inj (Option.some.inj hp2)
      rw [hpv] at hnone
      exact Option.noConfusion hnone
    · obtain ⟨p2, j, hp2, hj, hne⟩ := h
      rw [hp] at hp2
      cases Json.obj.inj (Option.some.inj hp2)
      rw [hpv] at hj
      exact hne s (Option.some.inj hj).symm
    · obtain ⟨p2, s2, hp2, hpv2, hb2⟩ := h
      rw [hp] at hp2
      cases Json.obj.inj (Option.some.inj hp2)
      rw [hpv] at hpv2
      cases Json.str.inj (Option.some.inj hpv2)
      rw [hdec] at hb2
      exact Option.noConfusion hb2
    · obtain ⟨p2, hp2, hc2⟩ := h
      rw [hp] at hp2
      cases Json.obj.inj (Option.some.inj hp2)
      rw [hc] at hc2
      exact Option.noConfusion hc2
    · obtain ⟨p2, s2, bs2, cb2, hp2, hpv2, hb2, hc2, hv2⟩ := h
      rw [hp] at hp2
      cases Json.obj.inj (Option.some.inj hp2)
      rw [hpv] at hpv2
      cases Json.str.inj (Option.some.inj hpv2)
      rw [hdec] at hb2
      cases Option.some.inj hb2
      rw [hc] at hc2
      cases Option.some.inj hc2
      rw [hv] at hv2
      exact Bool.noConfusion hv2

/-- Witness for C2: a document with no `proof` key verifies to `false`. -/
theorem verify_failure_returns_false_witness :
    verify_jsonld_document exEnv [("name", Json.str "Alice")] 5 = false :=
  verify_failure_returns_false exEnv [("name", Json.str "Alice")] 5 (Or.inl rfl)

/-- C1: signing then verifying with the matching public key succeeds.  The
collaborator contracts appear as hypotheses: the proof-augmented document
canonicalizes (the claim's "canonicalizes successfully" — `pyld` sees the
same payload plus the proof terms), base64 decode inverts encode on the
produced signature, and the Ed25519 primitive accepts its own signature under
the matching public key.  The proof shows the pipeline re-canonicalizes
exactly the bytes that were signed: stripping `proofValue` from the signed
document restores the document that `sign` canonicalized. -/
theorem sign_then_verify_roundtrip {Priv Pub : Type} (env : SigEnv Priv Pub)
    (now : UtcTime) (document : Obj) (priv : Priv) (vm : Option String)
    (created : Option String) (proofPurpose : String) (cb : List Nat)
    (hcanon : env.canonicalize
      (.obj (signBody env now document priv vm created proofPurpose)) = some cb)
    (hb64 : env.b64decode (env.b64encode (env.edSign priv (env.sha256 cb))) =
      some (env.edSign priv (env.sha256 cb)))
    (hver : env.edVerify (env.pubOf priv) (env.edSign priv (env.sha256 cb))
      (env.sha256 cb) = true) :
    ∃ sd, sign_jsonld_document env now document priv vm created proofPurpose = .ok sd ∧
      verify_jsonld_document env sd (env.pubOf priv) = true := by
  refine ⟨setKey (signBody env now document priv vm created proofPurpose) "proof"
    (.obj (setKey (create_proof_object now (resolveVerificationMethod env priv vm)
        created proofPurpose) "proofValue"
      (.str (env.b64encode (env.edSign priv (env.sha256 cb)))))), ?_, ?_⟩
  · simp only [sign_jsonld_document, hcanon]
  · rw [verify_true_characterization]
    refine ⟨setKey (create_proof_object now (resolveVerificationMethod env priv vm)
        created proofPurpose) "proofValue"
      (.str (env.b64encode (env.edSign priv (env.sha256 cb)))),
      env.b64encode (env.edSign priv (env.sha256 cb)),
      env.edSign priv (env.sha256 cb), cb,
      lookup_setKey_self _ _ _, rfl, rfl, hb64, ?_, hver⟩
    have hstrip : delKey (setKey (create_proof_object now
        (resolveVerificationMethod env priv vm) created proofPurpose) "proofValue"
        (.str (env.b64encode (env.edSign priv (env.sha256 cb))))) "proofValue" =
        create_proof_object now (resolveVerificationMethod env priv vm)
          created proofPurpose := rfl
    rw [hstrip, setKey_setKey]
    have hbody : signBody env now document priv vm created proofPurpose =
        setKey (delKey document "proof") "proof"
          (.obj (create_proof_object now (resolveVerificationMethod env priv vm)
            created proofPurpose)) := rfl
    rw [hbody, setKey_setKey, ← hbody]
    exact hcanon

/-- Witness for C1 at the basic scenario document and a concrete keypair. -/
theorem sign_then_verify_roundtrip_witness :
    ∃ sd, sign_jsonld_document exEnv exNow exDoc 5 none none "assertionMethod" =
        .ok sd ∧
      verify_jsonld_document exEnv sd (exEnv.pubOf 5) = true :=
  sign_then_verify_roundtrip exEnv exNow exDoc 5 none none "assertionMethod" [7]
    rfl rfl rfl

/-! ## Claim C3: the `@id`-alias special case -/

/-- C3 (code bug): `export_context` skips every `@`-prefixed term name with no
carve-out for `@id` (`models.py:135` is an unconditional
`if term_name.startswith("@"): continue`), so the field aliased to `@id` is
silently dropped from the compiled context — contradicting both the design's
intentional special case and the repository's own test
(`test_export_context_with_aliases` asserts `"@id" in ctx` with
`ctx["@id"]["@id"] == "schema:identifier"`).  Evaluating the embedded compiler
on that test's model: the local context contains only `name`, and the `@id`
term is absent. -/
theorem export_context_drops_atid_alias :
    localContext exAliasModel = [("name", Json.obj [("@id", Json.str "schema:name")])] ∧
    hasKey (localContext exAliasModel) "@id" = false ∧
    export_context exAliasModel =
      .ok (.obj [("@context",
        .obj [("name", .obj [("@id", .str "schema:name")])])]) :=
  ⟨rfl, rfl, rfl⟩

/-! ## Claim C9: the default `created` timestamp format -/

theorem digitChar_ne_plus (d : Nat) : digitChar d ≠ '+' := by
  unfold digitChar
  split <;> decide

theorem digitChar_isDigit (d : Nat) : (digitChar d).isDigit = true := by
  unfold digitChar
  split <;> decide

theorem mem_pad2_ne_plus {c : Char} {n : Nat} (h : c ∈ pad2 n) : c ≠ '+' := by
  rcases h with _ | ⟨_, h⟩
  · exact digitChar_ne_plus _
  · rcases h with _ | ⟨_, h⟩
    · exact digitChar_ne_plus _
    · cases h

theorem mem_pad4_ne_plus {c : Char} {n : Nat} (h : c ∈ pad4 n) : c ≠ '+' := by
  simp only [pad4, List.mem_cons, List.not_mem_nil, or_false] at h
  rcases h with rfl | rfl | rfl | rfl <;> exact digitChar_ne_plus _

theorem mem_pad6_ne_plus {c : Char} {n : Nat} (h : c ∈ pad6 n) : c ≠ '+' := by
  simp only [pad6, List.mem_cons, List.not_mem_nil, or_false] at h
  rcases h with rfl | rfl | rfl | rfl | rfl | rfl <;> exact digitChar_ne_plus _

theorem isoBodyChars_no_plus (t : UtcTime) : ∀ c ∈ isoBodyChars t, c ≠ '+' := by
  unfold isoBodyChars
  by_cases hm : t.microsecond = 0
  · rw [if_pos hm]
    simp only [List.append_nil, List.forall_mem_append, List.forall_mem_cons,
      and_assoc]
    exact ⟨fun c hc => mem_pad4_ne_plus hc, by decide,
      fun c hc => mem_pad2_ne_plus hc, by decide,
      fun c hc => mem_pad2_ne_plus hc, by decide,
      fun c hc => mem_pad2_ne_plus hc, by decide,
      fun c hc => mem_pad2_ne_plus hc, by decide,
      fun c hc => mem_pad2_ne_plus hc⟩
  · rw [if_neg hm]
    simp only [List.forall_mem_append, List.forall_mem_cons, and_assoc]
    exact ⟨fun c hc => mem_pad4_ne_plus hc, by decide,
      fun c hc => mem_pad2_ne_plus hc, by decide,
      fun c hc => mem_pad2_ne_plus hc, by decide,
      fun c hc => mem_pad2_ne_plus hc, by decide,
      fun c hc => mem_pad2_ne_plus hc, by decide,
      fun c hc => mem_pad2_ne_plus hc, by decide,
      fun c hc => mem_pad6_ne_plus hc⟩

/-- Python `str.replace` leaves a pattern-free prefix intact and rewrites the
trailing `+00:00` to `Z` (the scan never fires inside the prefix because the
pattern's first character does not occur there). -/
theorem replaceChars_plus_suffix (pre : List Char) (h : ∀ c ∈ pre, c ≠ '+') :
    replaceChars (pre.length + 6)
      (pre ++ ('+' :: '0' :: '0' :: ':' :: '0' :: '0' :: []))
      ('+' :: '0' :: '0' :: ':' :: '0' :: '0' :: []) ['Z'] = pre ++ ['Z'] := by
  induction pre with
  | nil => rfl
  | cons c rest ih =>
    have hc : c ≠ '+' := h c (List.mem_cons_self _ _)
    have hbeq : ('+' == c) = false :=
      beq_eq_false_iff_ne.2 (fun hh => hc hh.symm)
    show replaceChars (rest.length + 1 + 6) (c :: (rest ++ _)) _ _ = _
    have hfuel : rest.length + 1 + 6 = (rest.length + 6) + 1 := by omega
    rw [hfuel]
    simp only [replaceChars, List.isPrefixOf, hbeq, Bool.false_and,
      Bool.false_eq_true, if_false]
    rw [ih (fun x hx => h x (List.mem_cons_of_mem _ hx))]
    rfl

theorem utcnowString_eq (t : UtcTime) :
    utcnowString t = ⟨isoBodyChars t ++ ['Z']⟩ := by
  unfold utcnowString pyReplace isoformatUtc
  simp only [String.data]
  rw [List.length_append]
  exact congrArg String.mk
    (replaceChars_plus_suffix (isoBodyChars t) (isoBodyChars_no_plus t))

/-- C9 counterexample: at a clock reading with a non-zero microsecond field —
the generic case for `datetime.now` — the default `created` value keeps the
`.ffffff` fractional part that `isoformat()` prints, so it is not in
`YYYY-MM-DDTHH:MM:SSZ` form. -/
theorem create_proof_default_created_counterexample :
    lookupKey (create_proof_object ⟨2025, 7, 15, 14, 30, 0, 500000⟩ "key-5" none
        "assertionMethod") "created" =
      some (.str "2025-07-15T14:30:00.500000Z") ∧
    isSecondPrecisionZ "2025-07-15T14:30:00.500000Z" = false :=
  ⟨rfl, rfl⟩

/-- C9 (amended): with `created` omitted, the proof's `created` field is the
current UTC time as `isoformat()` prints it with the offset rewritten to `Z`,
i.e. `YYYY-MM-DDTHH:MM:SS[.ffffff]Z`; it is in the claimed second-precision
`YYYY-MM-DDTHH:MM:SSZ` form exactly when the clock's microsecond field is
zero (the field bounds are datetime's own invariants). -/
theorem create_proof_default_created (t : UtcTime) (vmeth purpose : String)
    (hy : t.year ≤ 9999) (hmo : t.month ≤ 12) (hd : t.day ≤ 31)
    (hh : t.hour ≤ 23) (hmi : t.minute ≤ 59) (hs : t.second ≤ 59)
    (hus : t.microsecond = 0) :
    lookupKey (create_proof_object t vmeth none purpose) "created" =
      some (.str (utcnowString t)) ∧
    isSecondPrecisionZ (utcnowString t) = true := by
  constructor
  · rfl
  · rw [utcnowString_eq]
    have hbody : isoBodyChars t =
        pad4 t.year ++ '-' :: pad2 t.month ++ '-' :: pad2 t.day ++
          'T' :: pad2 t.hour ++ ':' :: pad2 t.minute ++ ':' :: pad2 t.second := by
      unfold isoBodyChars
      rw [if_pos hus]
      simp
    rw [hbody]
    simp [isSecondPrecisionZ, pad4, pad2, digitChar_isDigit]

/-- Witness for C9 (amended) at the fixed witness clock. -/
theorem create_proof_default_created_witness :
    lookupKey (create_proof_object exNow "key-5" none "assertionMethod") "created" =
      some (.str (utcnowString exNow)) ∧
    isSecondPrecisionZ (utcnowString exNow) = true :=
  create_proof_default_created exNow "key-5" "assertionMethod"
    (by decide) (by decide) (by decide) (by decide) (by decide) (by decide) rfl

/-! ## Claim C6: `sh:minCount` on property shapes -/

theorem lookup_add_field_constraints_minCount (ps : Obj) (f : FieldSpec)
    (ftype : PyType) :
    lookupKey (add_field_constraints ps f ftype) "sh:minCount" =
      match ftype, f.minLength with
      | .pyList _, some n => some (.num n)
      | _, _ => lookupKey ps "sh:minCount" := by
  have hMaxLen : ∀ (o : Obj) v, lookupKey (setKey o "sh:maxLength" v) "sh:minCount" =
      lookupKey o "sh:minCount" := fun o v => lookup_setKey_ne o _ _ v (by decide)
  have hMinLen : ∀ (o : Obj) v, lookupKey (setKey o "sh:minLength" v) "sh:minCount" =
      lookupKey o "sh:minCount" := fun o v => lookup_setKey_ne o _ _ v (by decide)
  have hPat : ∀ (o : Obj) v, lookupKey (setKey o "sh:pattern" v) "sh:minCount" =
      lookupKey o "sh:minCount" := fun o v => lookup_setKey_ne o _ _ v (by decide)
  have hMinInc : ∀ (o : Obj) v, lookupKey (setKey o "sh:minInclusive" v) "sh:minCount" =
      lookupKey o "sh:minCount" := fun o v => lookup_setKey_ne o _ _ v (by decide)
  have hMinExc : ∀ (o : Obj) v, lookupKey (setKey o "sh:minExclusive" v) "sh:minCount" =
      lookupKey o "sh:minCount" := fun o v => lookup_setKey_ne o _ _ v (by decide)
  have hMaxInc : ∀ (o : Obj) v, lookupKey (setKey o "sh:maxInclusive" v) "sh:minCount" =
      lookupKey o "sh:minCount" := fun o v => lookup_setKey_ne o _ _ v (by decide)
  have hMaxExc : ∀ (o : Obj) v, lookupKey (setKey o "sh:maxExclusive" v) "sh:minCount" =
      lookupKey o "sh:minCount" := fun o v => lookup_setKey_ne o _ _ v (by decide)
  have hMaxCount : ∀ (o : Obj) v, lookupKey (setKey o "sh:maxCount" v) "sh:minCount" =
      lookupKey o "sh:minCount" := fun o v => lookup_setKey_ne o _ _ v (by decide)
  unfold add_field_constraints
  cases ftype with
  | pyStr =>
    cases hml : f.maxLength <;> cases hmn : f.minLength <;> cases hpt : f.pattern <;>
      simp [hml, hmn, hpt, hMaxLen, hMinLen, hPat]
  | pyInt =>
    cases hge : f.geC <;> cases hgt : f.gtC <;> cases hle : f.leC <;> cases hlt : f.ltC <;>
      simp [hge, hgt, hle, hlt, hMinInc, hMinExc, hMaxInc, hMaxExc]
  | pyFloat =>
    cases hge : f.geC <;> cases hgt : f.gtC <;> cases hle : f.leC <;> cases hlt : f.ltC <;>
      simp [hge, hgt, hle, hlt, hMinInc, hMinExc, hMaxInc, hMaxExc]
  | pyList elem =>
    cases hml : f.maxLength <;> cases hmn : f.minLength <;>
      simp [hml, hmn, hMaxCount, lookup_setKey_self]
  | pyBool => simp
  | pyDict => simp
  | pyOptional inner => simp
  | pyOther tyName => simp

theorem lookup_datatype_minCount (m : TermMeta) (ftype : PyType) (ps : Obj) :
    lookupKey (propertyShapeWithDatatype m ftype ps) "sh:minCount" =
      lookupKey ps "sh:minCount" := by
  have hNK : ∀ (o : Obj) v, lookupKey (setKey o "sh:nodeKind" v) "sh:minCount" =
      lookupKey o "sh:minCount" := fun o v => lookup_setKey_ne o _ _ v (by decide)
  have hDT : ∀ (o : Obj) v, lookupKey (setKey o "sh:datatype" v) "sh:minCount" =
      lookupKey o "sh:minCount" := fun o v => lookup_setKey_ne o _ _ v (by decide)
  unfold propertyShapeWithDatatype
  cases htt : truthyStr m.typ with
  | none => cases hx : pythonTypeToXsd ftype <;> simp [hDT]
  | some t =>
    by_cases h1 : t = "@id"
    · simp [h1, hNK]
    · by_cases h2 : strStartsWith t "xsd:" <;> simp [h1, h2, hDT]

theorem lookup_card_minCount (f : FieldSpec) (ps : Obj)
    (h0 : lookupKey ps "sh:minCount" = none) :
    lookupKey (propertyShapeWithCard f ps) "sh:minCount" =
      if f.required then some (.num 1) else none := by
  unfold propertyShapeWithCard
  by_cases hr : f.required <;> simp [hr, lookup_setKey_self, h0]

/-- C6 (amended): a compiled PropertyShape carries `sh:minCount` iff the
field is required or its (Optional-unwrapped) type is a list with an explicit
`min_length` bound; in the latter case the list bound overwrites the
required-field value (`exporters.py:237`), so the value is `min_length` for
such list fields and `1` otherwise. -/
theorem property_shape_minCount (fname : String) (f : FieldSpec) (m : TermMeta)
    (baseIri : String) (ps : Obj)
    (h : build_property_shape fname f m baseIri = some ps) :
    lookupKey ps "sh:minCount" =
      match unwrapOptionalType f.ftype, f.minLength with
      | .pyList _, some n => some (.num n)
      | _, _ => if f.required then some (.num 1) else none := by
  unfold build_property_shape at h
  by_cases hi : m.iri = ""
  · rw [if_pos hi] at h
    exact Option.noConfusion h
  · rw [if_neg hi] at h
    cases Option.some.inj h
    rw [lookup_add_field_constraints_minCount]
    have hcard : lookupKey (propertyShapeWithDatatype m (unwrapOptionalType f.ftype)
        (propertyShapeWithCard f (propertyShapeBase fname m baseIri))) "sh:minCount" =
        if f.required then some (.num 1) else none := by
      rw [lookup_datatype_minCount, lookup_card_minCount]
      rfl
    rw [hcard]

/-- C6 counterexample: an optional list field with `min_length=1` — the
property shape of an optional annotated field carrying `sh:minCount`,
contradicting "an optional one never does". -/
theorem optional_list_minCount_counterexample :
    exOptListField.required = false ∧
    (build_property_shape "skills" exOptListField exOptListMeta
        "https://example.org/").map (fun ps => hasKey ps "sh:minCount") =
      some true :=
  ⟨rfl, rfl⟩

/-- Witness for C6 (amended) at a required plain string field: its shape
carries `sh:minCount = 1`. -/
theorem property_shape_minCount_witness :
    lookupKey
      [("@id", Json.str "https://example.org/shapes/namePropertyShape"),
       ("@type", Json.str "sh:PropertyShape"),
       ("sh:path", Json.obj [("@id", Json.str "schema:name")]),
       ("sh:minCount", Json.num 1),
       ("sh:datatype", Json.obj [("@id", Json.str "xsd:string")])] "sh:minCount" =
      some (.num 1) :=
  property_shape_minCount "name" exNameField exNameMeta "https://example.org/" _ rfl

/-! ## Claim C7: the instance type check of `export_graph` -/

theorem export_context_eq (cls : ModelClass) :
    export_context cls =
      match validate_context_value (contextValue cls) with
      | .ok _ => .ok (.obj [("@context", contextValue cls)])
      | .error e1 => .error ("Invalid JSON-LD context: " ++ e1) := by
  unfold export_context
  have hvc : validate_context [("@context", contextValue cls)] =
      match validate_context_value (contextValue cls) with
      | .ok _ => .ok ()
      | .error e1 => .error ("Invalid JSON-LD context: " ++ e1) := rfl
  rw [hvc]
  cases validate_context_value (contextValue cls) <;> rfl

theorem export_context_error_shape (cls : ModelClass) (e0 : String)
    (h : export_context cls = .error e0) :
    ∃ s, e0 = "Invalid JSON-LD context: " ++ s := by
  rw [export_context_eq cls] at h
  cases hv : validate_context_value (contextValue cls) with
  | ok u =>
    rw [hv] at h
    exact Except.noConfusion h
  | error e1 =>
    rw [hv] at h
    exact ⟨e1, (Except.error.inj h).symm⟩

theorem export_context_ok_validate (cls : ModelClass) (j : Json)
    (h : export_context cls = .ok j) :
    validate_context [("@context", contextValue cls)] = .ok () := by
  unfold export_context at h
  cases hv : validate_context [("@context", contextValue cls)] with
  | ok u => cases u; rfl
  | error e1 =>
    rw [hv] at h
    exact Except.noConfusion h

theorem graphItem_inactive (pat : Option String)
    (hpat : pat = none ∨ pat = some "") (i : Nat) (inst : PyInstance) :
    graphItem pat i inst = .ok (.obj inst.dump) := by
  rcases hpat with rfl | rfl
  · rfl
  · simp [graphItem]

theorem buildGraphItemsFrom_inactive (pat : Option String)
    (hpat : pat = none ∨ pat = some "") (instances : List PyInstance) :
    ∀ i, buildGraphItemsFrom pat i instances =
      .ok (instances.map (fun inst => Json.obj inst.dump)) := by
  induction instances with
  | nil => intro i; rfl
  | cons inst rest ih =>
    intro i
    simp [buildGraphItemsFrom, graphItem_inactive pat hpat, ih]

theorem buildGraphItems_inactive (pat : Option String)
    (hpat : pat = none ∨ pat = some "") (instances : List PyInstance) :
    buildGraphItems pat instances =
      .ok (instances.map (fun inst => Json.obj inst.dump)) := by
  unfold buildGraphItems
  exact buildGraphItemsFrom_inactive pat hpat instances 0

/-- C7 (amended): `export_graph`'s type check is `isinstance`
(`models.py:203`), not strict class equality: with a non-empty instance list,
the type-mismatch error (naming the first offending instance's concrete
class) is raised exactly when some instance is not an instance of
`model_class` *or one of its subclasses*.  When every instance passes
`isinstance` — proper-subclass instances included — the type-mismatch error
is impossible; with no active `auto_id_pattern` (absent, or the empty string,
which is falsy at `models.py:223` and synthesizes nothing), any error the
call still returns is a context-validation error (prefixed
`Invalid JSON-LD context:`).  An active pattern can additionally surface a
`str.format` exception — `KeyError` on an unknown placeholder and kin —
which is unprefixed and is exercised by `export_graph_format_keyerror`. -/
theorem export_graph_isinstance_check (cls : ModelClass)
    (instances : List PyInstance) (gid : Option String) (md : Option Obj)
    (pat : Option String) (nowStamp : String) (hne : instances ≠ []) :
    (∀ bad, instances.find? (fun inst => !(isinstance inst cls)) = some bad →
      export_graph cls instances gid md pat nowStamp =
        .error ("All instances must be of type " ++ cls.name ++ ", got " ++
          bad.clsName)) ∧
    (instances.find? (fun inst => !(isinstance inst cls)) = none →
      pat = none ∨ pat = some "" →
      ∀ e, export_graph cls instances gid md pat nowStamp = .error e →
        ∃ s, e = "Invalid JSON-LD context: " ++ s) := by
  cases instances with
  | nil => exact absurd rfl hne
  | cons i rest =>
    constructor
    · intro bad hf
      simp only [export_graph]
      rw [hf]
    · intro hf hpat e he
      simp only [export_graph] at he
      rw [hf] at he
      cases hctx : export_context cls with
      | error e0 =>
        rw [hctx] at he
        obtain ⟨s, hs⟩ := export_context_error_shape cls e0 hctx
        exact ⟨s, by rw [← Except.error.inj he, hs]⟩
      | ok j =>
        rw [hctx] at he
        rw [buildGraphItems_inactive pat hpat (i :: rest)] at he
        rw [export_context_ok_validate cls j hctx] at he
        exact Except.noConfusion he

/-- Demonstration that the `str.format` error path of the embedding is live
and unprefixed: an active pattern with an unknown placeholder makes the
export fail with the propagated `KeyError`, not a context-validation error. -/
theorem export_graph_format_keyerror :
    export_graph exPersonModel [exPersonInstance] (some "g") none
      (some "x-{foo}") "ts" = .error "KeyError: foo" := rfl

/-- C7 counterexample: an instance of the proper subclass `ExtendedPerson`
passed to `PersonModel.export_graph` is accepted (the export succeeds), not
rejected with the type-mismatch error the claim requires. -/
theorem export_graph_subclass_accepted :
    (export_graph exPersonModel [exSubclassInstance] (some "g") none none
      "ts").isOk = true := rfl

/-- Witness for C7 (amended) at an unrelated-class instance. -/
theorem export_graph_isinstance_check_witness :
    export_graph exPersonModel [exProductInstance] (some "g") none none "ts" =
      .error "All instances must be of type PersonModel, got ProductModel" :=
  (export_graph_isinstance_check exPersonModel [exProductInstance] (some "g")
    none none "ts" (by simp)).1 exProductInstance rfl

/-! ## Claim C8: the mixed-model graph contract -/

/-- C8 (spec-modelled): `export_mixed_graph` fails with the empty-model-set
error on an empty sequence and returns a `MixedGraphDocument` for every
non-empty sequence of annotated instances. -/
theorem export_mixed_graph_contract (gid : Option String) (md : Option Obj)
    (nowStamp : String) :
    export_mixed_graph [] gid md nowStamp =
      .error "Cannot create graph from empty models list" ∧
    ∀ models : List MixedInstance, models ≠ [] →
      ∃ doc, export_mixed_graph models gid md nowStamp = .ok doc := by
  constructor
  · rfl
  · intro models hne
    cases models with
    | nil => exact absurd rfl hne
    | cons a rest => exact ⟨_, rfl⟩

/-- Witness for C8 at a one-instance heterogeneous list. -/
theorem export_mixed_graph_contract_witness :
    ∃ doc, export_mixed_graph
        [⟨exPersonModel, [("name", Json.str "Alice")]⟩] (some "g") none "ts" =
      .ok doc :=
  (export_mixed_graph_contract (some "g") none "ts").2
    [⟨exPersonModel, [("name", Json.str "Alice")]⟩] (by simp)

/-! ## Claim C5: context round-trip through the validator -/

theorem validate_buildTermDef (m : TermMeta)
    (hc : ∀ c, truthyStr m.container = some c →
      validContainerValues.contains c = true) :
    validate_term_definition (buildTermDef m) = .ok () := by
  rcases htt : truthyStr m.typ with _ | t <;>
    rcases hcc : truthyStr m.container with _ | c <;>
      rcases hll : truthyStr m.language with _ | l <;>
        simp only [buildTermDef, htt, hcc, hll]
  · rfl
  · rfl
  · have h1 : validContainerValues.contains c = true := hc c hcc
    calc validate_term_definition
          (setKey [("@id", .str m.iri)] "@container" (.str c))
        = Except.bind (checkTermContainer
            (setKey [("@id", .str m.iri)] "@container" (.str c)))
            (fun _ => checkTermLanguage
              (setKey [("@id", .str m.iri)] "@container" (.str c))) := rfl
      _ = .ok () := by
          rw [show checkTermContainer
            (setKey [("@id", .str m.iri)] "@container" (.str c)) =
            (if validContainerValues.contains c then Except.ok ()
             else .error ("Invalid @container value: " ++ c)) from rfl, h1]
          rfl
  · have h1 : validContainerValues.contains c = true := hc c hcc
    calc validate_term_definition
          (setKey (setKey [("@id", .str m.iri)] "@container" (.str c))
            "@language" (.str l))
        = Except.bind (checkTermContainer
            (setKey (setKey [("@id", .str m.iri)] "@container" (.str c))
              "@language" (.str l)))
            (fun _ => checkTermLanguage
              (setKey (setKey [("@id", .str m.iri)] "@container" (.str c))
                "@language" (.str l))) := rfl
      _ = .ok () := by
          rw [show checkTermContainer
            (setKey (setKey [("@id", .str m.iri)] "@container" (.str c))
              "@language" (.str l)) =
            (if validContainerValues.contains c then Except.ok ()
             else .error ("Invalid @container value: " ++ c)) from rfl, h1]
          rfl
  · rfl
  · rfl
  · have h1 : validContainerValues.contains c = true := hc c hcc
    calc validate_term_definition
          (setKey (setKey [("@id", .str m.iri)] "@type" (.str t))
            "@container" (.str c))
        = Except.bind (checkTermContainer
            (setKey (setKey [("@id", .str m.iri)] "@type" (.str t))
              "@container" (.str c)))
            (fun _ => checkTermLanguage
              (setKey (setKey [("@id", .str m.iri)] "@type" (.str t))
                "@container" (.str c))) := rfl
      _ = .ok () := by
          rw [show checkTermContainer
            (setKey (setKey [("@id", .str m.iri)] "@type" (.str t))
              "@container" (.str c)) =
            (if validContainerValues.contains c then Except.ok ()
             else .error ("Invalid @container value: " ++ c)) from rfl, h1]
          rfl
  · have h1 : validContainerValues.contains c = true := hc c hcc
    calc validate_term_definition
          (setKey (setKey (setKey [("@id", .str m.iri)] "@type" (.str t))
            "@container" (.str c)) "@language" (.str l))
        = Except.bind (checkTermContainer
            (setKey (setKey (setKey [("@id", .str m.iri)] "@type" (.str t))
              "@container" (.str c)) "@language" (.str l)))
            (fun _ => checkTermLanguage
              (setKey (setKey (setKey [("@id", .str m.iri)] "@type" (.str t))
                "@container" (.str c)) "@language" (.str l))) := rfl
      _ = .ok () := by
          rw [show checkTermContainer
            (setKey (setKey (setKey [("@id", .str m.iri)] "@type" (.str t))
              "@container" (.str c)) "@language" (.str l)) =
            (if validContainerValues.contains c then Except.ok ()
             else .error ("Invalid @container value: " ++ c)) from rfl, h1]
          rfl

theorem validateContextEntry_good (k : String) (v : Json)
    (h : GoodEntry (k, v)) : validateContextEntry k v = .ok () := by
  rcases h with ⟨hk, s, hv⟩ | ⟨hk, s, hv⟩ | ⟨hk, h2⟩
  · subst hk; subst hv; rfl
  · subst hk; subst hv; rfl
  · rcases h2 with ⟨s, hv⟩ | ⟨t, hv, hval⟩
    · subst hv
      unfold validateContextEntry
      rw [hk]
      simp
    · subst hv
      unfold validateContextEntry
      rw [hk]
      simp [hval]

theorem validate_context_object_of_good (o : Obj)
    (h : ∀ e ∈ o, GoodEntry e) : validate_context_object o = .ok () := by
  induction o with
  | nil => rfl
  | cons e rest ih =>
    obtain ⟨k, v⟩ := e
    have h1 : validateContextEntry k v = .ok () :=
      validateContextEntry_good k v (h _ (List.mem_cons_self _ _))
    have h2 := ih (fun x hx => h x (List.mem_cons_of_mem _ hx))
    calc validate_context_object ((k, v) :: rest)
        = Except.bind (validateContextEntry k v)
            (fun _ => validate_context_object rest) := rfl
      _ = .ok () := by rw [h1]; exact h2

theorem foldl_prefixes_good (prefixes : List (String × String)) (init : Obj)
    (hinit : ∀ e ∈ init, GoodEntry e)
    (hpre : ∀ kv ∈ prefixes, strStartsWith kv.1 "@" = false) :
    ∀ e ∈ prefixes.foldl (fun acc kv => setKey acc kv.1 (.str kv.2)) init,
      GoodEntry e := by
  induction prefixes generalizing init with
  | nil => exact hinit
  | cons kv rest ih =>
    intro e he
    refine ih (setKey init kv.1 (.str kv.2)) ?_
      (fun x hx => hpre x (List.mem_cons_of_mem _ hx)) e he
    intro x hx
    rcases mem_setKey _ _ _ _ hx with hmem | rfl
    · exact hinit x hmem
    · exact Or.inr (Or.inr ⟨hpre kv (List.mem_cons_self _ _), Or.inl ⟨kv.2, rfl⟩⟩)

theorem foldl_fields_good (fields : List (String × FieldSpec)) (init : Obj)
    (hinit : ∀ e ∈ init, GoodEntry e)
    (hcont : ∀ fv ∈ fields, containerOk fv.2 = true) :
    ∀ e ∈ fields.foldl
      (fun acc fv =>
        match fv.2.meta with
        | none => acc
        | some m =>
          let tn := termName fv.1 fv.2
          if strStartsWith tn "@" then acc
          else setKey acc tn (.obj (buildTermDef m))) init,
      GoodEntry e := by
  induction fields generalizing init with
  | nil => exact hinit
  | cons fv rest ih =>
    intro e he
    refine ih _ ?_ (fun x hx => hcont x (List.mem_cons_of_mem _ hx)) e he
    intro x hx
    simp only [] at hx
    rcases hm : fv.2.meta with _ | m
    · rw [hm] at hx
      exact hinit x hx
    · rw [hm] at hx
      by_cases hs : strStartsWith (termName fv.1 fv.2) "@" = true
      · simp only [hs, if_true] at hx
        exact hinit x hx
      · have hs' : strStartsWith (termName fv.1 fv.2) "@" = false :=
          Bool.not_eq_true _ ▸ Bool.of_not_eq_true hs
        simp only [hs', Bool.false_eq_true, if_false] at hx
        rcases mem_setKey _ _ _ _ hx with hmem | rfl
        · exact hinit x hmem
        · refine Or.inr (Or.inr ⟨hs', Or.inr ⟨buildTermDef m, rfl, ?_⟩⟩)
          apply validate_buildTermDef
          intro c hcc
          have hco := hcont fv (List.mem_cons_self _ _)
          simp only [containerOk, hm, hcc] at hco
          exact hco

theorem localContext_good (cls : ModelClass)
    (hpre : prefixesOk cls = true) (hcont : fieldsContainerOk cls = true) :
    ∀ e ∈ localContext cls, GoodEntry e := by
  have hpre' : ∀ kv ∈ cls.prefixes, strStartsWith kv.1 "@" = false := by
    intro kv hkv
    have := List.all_eq_true.1 hpre kv hkv
    simpa using this
  have hcont' : ∀ fv ∈ cls.fields, containerOk fv.2 = true :=
    fun fv hfv => List.all_eq_true.1 hcont fv hfv
  unfold localContext
  apply foldl_fields_good _ _ _ hcont'
  apply foldl_prefixes_good _ _ _ hpre'
  rcases hb : truthyStr cls.base with _ | b <;>
    rcases hv : truthyStr cls.vocab with _ | v <;> intro e he
  · cases he
  · rcases he with _ | ⟨_, he⟩
    · exact Or.inr (Or.inl ⟨rfl, v, rfl⟩)
    · cases he
  · rcases he with _ | ⟨_, he⟩
    · exact Or.inl ⟨rfl, b, rfl⟩
    · cases he
  · rcases he with _ | ⟨_, he⟩
    · exact Or.inl ⟨rfl, b, rfl⟩
    · rcases he with _ | ⟨_, he⟩
      · exact Or.inr (Or.inl ⟨rfl, v, rfl⟩)
      · cases he

theorem validate_context_items_remotes (rcs : List String) (lc : Obj)
    (hrem : ∀ r ∈ rcs, (strStartsWith r "http://" || strStartsWith r "https://") = true)
    (hobj : validate_context_object lc = .ok ()) :
    validate_context_items (rcs.map Json.str ++ [.obj lc]) = .ok () := by
  induction rcs with
  | nil =>
    calc validate_context_items [.obj lc]
        = Except.bind (validate_context_object lc)
            (fun _ => validate_context_items []) := rfl
      _ = .ok () := by rw [hobj]; rfl
  | cons r rs ih =>
    have h1 : (strStartsWith r "http://" || strStartsWith r "https://") = true :=
      hrem r (List.mem_cons_self _ _)
    have hstep : validate_context_items ((r :: rs).map Json.str ++ [Json.obj lc]) =
        if strStartsWith r "http://" || strStartsWith r "https://" then
          validate_context_items (rs.map Json.str ++ [Json.obj lc])
        else .error "Remote context must be a valid URL" := rfl
    rw [hstep, h1, if_pos rfl]
    exact ih (fun x hx => hrem x (List.mem_cons_of_mem _ hx))

/-- C5 (amended): `export_context` output always passes the Context Grammar
Validator — and so the compile returns it — provided the class configuration
and descriptors stay inside the validator's domains: remote context
references are `http://`/`https://` URLs, prefix names do not start with `@`,
and every truthy container value is one of
`@list/@set/@index/@language/@id/@type`.  Outside those domains the compile
aborts with `InvalidContext` (see the counterexample), so the claim's "any
TermDescriptor contents, any configured prefixes/remote contexts" is too
strong. -/
theorem export_context_validates (cls : ModelClass)
    (hrem : remoteContextsOk cls = true)
    (hpre : prefixesOk cls = true)
    (hcont : fieldsContainerOk cls = true) :
    export_context cls = .ok (.obj [("@context", contextValue cls)]) := by
  have hobj : validate_context_object (localContext cls) = .ok () :=
    validate_context_object_of_good _ (localContext_good cls hpre hcont)
  have hval : validate_context_value (contextValue cls) = .ok () := by
    unfold contextValue
    rcases hr : cls.remoteContexts with _ | ⟨r, rs⟩
    · exact hobj
    · have hrem' : ∀ x ∈ cls.remoteContexts,
          (strStartsWith x "http://" || strStartsWith x "https://") = true :=
        List.all_eq_true.1 hrem
      rw [hr] at hrem'
      exact validate_context_items_remotes (r :: rs) (localContext cls) hrem' hobj
  rw [export_context_eq cls, hval]

/-- C5 counterexample: a descriptor with `container="bogus"` makes
`export_context` fail on its own output — the compile raises `InvalidContext`
instead of returning, refuting the claim for arbitrary descriptor contents. -/
theorem export_context_invalid_container_counterexample :
    export_context exBadContainerModel =
      .error "Invalid JSON-LD context: Invalid @container value: bogus" := rfl

/-- Witness for C5 (amended) at a fully configured model (base, prefix,
remote context, `@set` container). -/
theorem export_context_validates_witness :
    export_context exPersonModel =
      .ok (.obj [("@context", contextValue exPersonModel)]) :=
  export_context_validates exPersonModel rfl rfl rfl

end PydanticJsonLD
